import Mathlib

/-!
# Enterprise OT Sentinel — verification of the edge pipeline and the agent orchestrator

Shallow embedding of the core logic of the repository:

* `src/services/simulatedData.ts` — the telemetry data model and the dataset
  generators (`generateNormal` is embedded with the `Math.random` stream made
  an explicit oracle argument, and `Math.sin` / `Math.cos` abstract functions).
* `src/services/edgeService.ts` — playback state (`EdgeState`), the frame
  reader (`readNextFrame`), the rule-based classifier inside `runGeminiNano`
  (embedded as `classify`), and the per-tick uplink decision
  (alert vs. sampled heartbeat, embedded as `tick`).
* `src/services/agentOrchestrator.ts` — the memory service (`pruneContext`,
  `retrieveContext`), the session data model, `startSession` and
  `processApproval`.

Numbers are embedded as `ℚ` (the JS values compared by the claims are exact
decimals).  `crypto.randomUUID()` is embedded as a fresh-id counter threaded
through the orchestrator state.  Wall-clock artefacts (timestamps,
`performance.now()` latencies, the observability trace log) and the message
`metadata` payloads are not part of any claimed property and are elided from
the embedded state.
-/

namespace OTSentinel

/-! ## Data model (`src/services/simulatedData.ts`) -/

structure NetworkLog where
  protocol : String
  command : String
  isMalicious : Bool
  size : ℚ
  source : String
deriving DecidableEq, Repr

structure TelemetryFrame where
  temp : ℚ
  vib : ℚ
  audio : ℚ
  latency : ℚ
  packetLoss : ℚ
  cpu : ℚ
  pressure : ℚ
  current : ℚ
  networkLog : NetworkLog
deriving DecidableEq, Repr

/-! ### `generateNormal`

The source builds 60 frames in a loop; each iteration draws seven
`Math.random()` samples, in this order: the command pick, `audio`, `latency`,
`cpu`, `pressure`, `current`, and the network-log `size`.  The oracle
`random : ℕ → ℚ` is the stream of successive `Math.random()` results (sample
`7*i + k` is the `k`-th draw of iteration `i`), and `sin`/`cos` stand for
`Math.sin`/`Math.cos`. -/

def normalCommands : List (String × String × ℚ) :=
  [("Modbus TCP", "Read Holding Reg (0x03)", 64),
   ("Modbus TCP", "Read Input Reg (0x04)", 64),
   ("EtherNet/IP", "CIP Read Data", 128),
   ("S7Comm", "Read Var", 96)]

def normalFrame (random : ℕ → ℚ) (sin cos : ℚ → ℚ) (i : ℕ) : TelemetryFrame :=
  let cmd := normalCommands.getD (⌊random (7 * i) * 4⌋).toNat
      ("Modbus TCP", "Read Holding Reg (0x03)", 64)
  { temp := 45 + sin ((i : ℚ) * 0.1) * 2
    vib := 2.5 + cos ((i : ℚ) * 0.5) * 0.2
    audio := 60 + random (7 * i + 1)
    latency := 10 + random (7 * i + 2) * 5
    packetLoss := 0
    cpu := 15 + random (7 * i + 3) * 2
    pressure := 200 + random (7 * i + 4) * 2
    current := 12 + random (7 * i + 5) * 0.5
    networkLog :=
      { protocol := cmd.1
        command := cmd.2.1
        isMalicious := false
        size := cmd.2.2 + random (7 * i + 6) * 10
        source := "192.168.1.50" } }

def generateNormal (random : ℕ → ℚ) (sin cos : ℚ → ℚ) : List TelemetryFrame :=
  (List.range 60).map (normalFrame random sin cos)

/-! ## Edge service (`src/services/edgeService.ts`) -/

inductive EdgeFaultType
  | NONE
  | IT_ATTACK
  | OT_ATTACK
  | MECHANICAL_FAIL
deriving DecidableEq, Repr

inductive DetectedLabel
  | NORMAL
  | MECHANICAL_WEAR
  | THERMAL_RUNAWAY
  | NETWORK_DDOS
  | CYBER_KINETIC
  | UNKNOWN
deriving DecidableEq, Repr

structure GeminiNanoResult where
  anomalyScore : ℚ
  detectedLabel : DetectedLabel
  specificAlerts : List String
deriving DecidableEq, Repr

/-- The playback state of the `EdgeService` class: active dataset, cursor,
fault mode, and the most recently read frame. -/
structure EdgeState where
  currentDataset : List TelemetryFrame
  playbackCursor : ℕ
  faultMode : EdgeFaultType
  currentFrame : TelemetryFrame
deriving DecidableEq, Repr

/-- `readNextFrame`: read the frame at the current cursor into `currentFrame`,
then advance the cursor by one modulo the dataset length. -/
def readNextFrame (s : EdgeState) : EdgeState :=
  { s with
    currentFrame := s.currentDataset.getD s.playbackCursor s.currentFrame
    playbackCursor := (s.playbackCursor + 1) % s.currentDataset.length }

/-- The detection logic of `runGeminiNano` (the pure part: label, score and
alert strings as a function of the frame and the fault mode; the wall-clock
inference-time estimate is elided). -/
def classify (faultMode : EdgeFaultType) (f : TelemetryFrame) : GeminiNanoResult :=
  if f.packetLoss > 5 ∧ f.temp < 60 then
    { anomalyScore := 0.92
      detectedLabel := .NETWORK_DDOS
      specificAlerts := ["High Packet Loss Detected", "Network Latency Spike"] }
  else if f.networkLog.isMalicious ∨ (f.temp > 75 ∧ f.latency > 100) then
    { anomalyScore := 0.99
      detectedLabel := .CYBER_KINETIC
      specificAlerts := ["DPI ALERT: Unauthorized Modbus Command",
                         "PAYLOAD: " ++ f.networkLog.command,
                         "Correlated Thermal Anomaly"] }
  else if faultMode = .MECHANICAL_FAIL ∧ (f.vib > 5 ∨ f.audio > 70 ∨ f.pressure < 180) then
    { anomalyScore := 0.88
      detectedLabel := .MECHANICAL_WEAR
      specificAlerts :=
        (if f.audio > 75 then ["Audio: Abnormal Noise Detected"] else []) ++
        (if f.vib > 5 then ["Vibration: Rise in Amplitude"] else []) }
  else
    { anomalyScore := 0.1, detectedLabel := .NORMAL, specificAlerts := [] }

/-- An event published on the uplink on one tick.  The alert carries the
classifier result and the raw frame it was computed from; the heartbeat
carries the `cpuLoad` and `averageTemp` fields taken from the current frame
(constant payload fields such as `machineId` and `memoryUsage` are elided). -/
inductive EdgeEvent
  | Alert (nanoAnalysis : GeminiNanoResult) (rawFrame : TelemetryFrame)
  | Heartbeat (cpuLoad : ℚ) (averageTemp : ℚ)
deriving DecidableEq, Repr

/-- One 500 ms device-loop tick: `readNextFrame` then `runGeminiNano`.
If the anomaly score exceeds 0.7 an alert is always published; otherwise
`sendHeartbeat` publishes a heartbeat only when `playbackCursor % 5 == 0` —
note that at this point the cursor has already been advanced past the frame
just classified. -/
def tick (s : EdgeState) : EdgeState × Option EdgeEvent :=
  let s' := readNextFrame s
  let r := classify s'.faultMode s'.currentFrame
  if r.anomalyScore > 0.7 then
    (s', some (.Alert r s'.currentFrame))
  else if s'.playbackCursor % 5 = 0 then
    (s', some (.Heartbeat s'.currentFrame.cpu s'.currentFrame.temp))
  else
    (s', none)

/-- Run `n` consecutive ticks, collecting the event slot of each tick. -/
def runTicks : EdgeState → ℕ → List (Option EdgeEvent)
  | _, 0 => []
  | s, n + 1 =>
    let p := tick s
    p.2 :: runTicks p.1 n

/-- Tick indices (0-based) at which a heartbeat was published. -/
def heartbeatTicks (evts : List (Option EdgeEvent)) : List ℕ :=
  (List.range evts.length).filter fun i =>
    match evts.getD i none with
    | some (.Heartbeat _ _) => true
    | _ => false

/-! ## Agent orchestrator (`src/services/agentOrchestrator.ts`) -/

/-- Agent identities.  The source encodes them as the role strings
`AIO` (orchestrator), `AIS` (search), `ATA` (tester) and `AID` (deployer);
here they are named by function. -/
inductive AgentRole
  | Orchestrator
  | Search
  | Tester
  | Deployer
deriving DecidableEq, Repr

inductive SessionStatus
  | RESEARCHING
  | PLANNING
  | VALIDATING
  | DEPLOYED
deriving DecidableEq, Repr

/-- An agent message.  `crypto.randomUUID()` is embedded as a `ℕ` drawn from
the orchestrator's fresh-id counter; the wall-clock `timestamp` and the
`metadata` payload are elided (no claim touches them).  `approved` is
`undefined` until the supervisor decides, hence `Option Bool`. -/
structure AgentMessage where
  id : ℕ
  role : AgentRole
  content : String
  requiresHIL : Bool
  approved : Option Bool := none
deriving DecidableEq, Repr

structure ResearchSession where
  objective : String
  status : SessionStatus
  messages : List AgentMessage
  longTermMemoryHits : List String
deriving DecidableEq, Repr

/-- `MemoryService.retrieveContext`: keyword match of the query against the
fixed knowledge base (`query.toLowerCase().includes(topic.toLowerCase()) ||
query.includes('fault')`). -/
def knowledgeBase : List (String × String) :=
  [("Bearing Faults", "Spectrogram analysis works best for rolling element bearings."),
   ("Network DDoS", "High packet loss + SYN flood signature requires immediate port blocking.")]

def containsSubstr (hay needle : String) : Bool :=
  (List.range (hay.toList.length + 1)).any fun i =>
    needle.toList.isPrefixOf (hay.toList.drop i)

def retrieveContext (query : String) : List String :=
  (knowledgeBase.filter fun k =>
      containsSubstr query.toLower k.1.toLower || containsSubstr query "fault").map
    fun k => "[LTM Hit]: " ++ k.2

/-- `MemoryService.pruneContext`: once the list exceeds 20 entries, keep the
first message plus the most recent 10 (`[messages[0], ...messages.slice(-10)]`). -/
def pruneContext (messages : List AgentMessage) : List AgentMessage :=
  if messages.length > 20 then
    messages.take 1 ++ messages.drop (messages.length - 10)
  else
    messages

/-- Orchestrator state: the single active session plus the fresh-id supply
standing in for `crypto.randomUUID()`.  The observability trace log is elided
(no claim refers to it). -/
structure OrchState where
  session : ResearchSession
  nextId : ℕ
deriving DecidableEq, Repr

/-- `resetSession`: a fresh session in the initial `RESEARCHING` state. -/
def resetSession (st : OrchState) : OrchState :=
  { st with session :=
      { objective := ""
        status := .RESEARCHING
        messages := []
        longTermMemoryHits := [] } }

/-- `startSession(objective)`: discard any prior session, recall long-term
memory, and append the initial Orchestrator message requiring approval. -/
def startSession (st : OrchState) (objective : String) : OrchState × AgentMessage :=
  let st := resetSession st
  let memories := retrieveContext objective
  let initialMsg : AgentMessage :=
    { id := st.nextId
      role := .Orchestrator
      content := "Objective Received: \"" ++ objective ++ "\".\n\n[Memory Recall]: Found "
        ++ toString memories.length
        ++ " relevant past insights.\n\nI will instruct the Search Agent (AIS) to find SOTA algorithms."
      requiresHIL := true }
  ({ st with
      session := { st.session with
        objective := objective
        longTermMemoryHits := memories
        messages := [initialMsg] }
      nextId := st.nextId + 1 },
   initialMsg)

/-- `targetMsg.approved = approved`: set the approval flag on the first
message with the given id (UUIDs are unique, so JS finds at most one). -/
def setApprovedFirst : List AgentMessage → ℕ → Bool → List AgentMessage
  | [], _, _ => []
  | m :: ms, msgId, b =>
    if m.id = msgId then { m with approved := some b } :: ms
    else m :: setApprovedFirst ms msgId b

/-- The fixed message returned by the mocked `runAISearch` sub-agent. -/
def searchResMsg (msgId : ℕ) : AgentMessage :=
  { id := msgId
    role := .Search
    content := "I have scanned arXiv, GitHub, and Google Research.\n\nTop Candidates:\n1. TimesFM (Google) - Zero-shot forecasting.\n2. PatchTST - Transformer based segmentation.\n\nRecommendation: PatchTST for Vibration/Audio multi-modal analysis."
    requiresHIL := false }

/-- The fixed message returned by the mocked `runATATest` sub-agent. -/
def testResMsg (msgId : ℕ) : AgentMessage :=
  { id := msgId
    role := .Tester
    content := "Test Bench Execution Complete.\n\n- Data Source: AGV-01 (30 Days History)\n- Injected Faults: Mechanical Failure (Dataset #3)\n- Outcome: Successfully detected failure at T-minus 48 hours.\n\nSee attached metrics card."
    requiresHIL := false }

def planMsg (msgId : ℕ) : AgentMessage :=
  { id := msgId
    role := .Orchestrator
    content := "Findings analyzed. I propose testing the \"Time-Series Transformer\" approach. \n\nNext Step: Instruct Test Agent (ATA) to build a test bench using 30 days of historical sensor data from AGV-01."
    requiresHIL := true }

def validMsg (msgId : ℕ) : AgentMessage :=
  { id := msgId
    role := .Orchestrator
    content := "Test Results Verified. \nAccuracy (98.5%) exceeds baseline (94%). \nInference Speed (15ms) is within edge limits.\n\nRequesting permission to Deploy to Production (Update Edge Config)."
    requiresHIL := true }

def deployMsg (msgId : ℕ) : AgentMessage :=
  { id := msgId
    role := .Deployer
    content := "Deploying Algorithm v2.1.0 to Edge Nodes...\n\n- Updated Inference Engine (TFLite)\n- Updated Threshold Config\n- Restarted Monitoring Services\n\nDeployment Successful."
    requiresHIL := false }

def rejectionMsg (msgId : ℕ) : AgentMessage :=
  { id := msgId
    role := .Orchestrator
    content := "Operation cancelled by Supervisor. Waiting for refined instructions..."
    requiresHIL := false }

/-- `processApproval(messageId, approved)`: if the message is absent, return
no messages and change nothing.  Otherwise record the decision on the target
message; on rejection return the single cancellation message WITHOUT appending
it to the session; on approval run one step of the A2A routing state machine
(RESEARCHING → PLANNING → VALIDATING → DEPLOYED), append the newly produced
messages and prune the context. -/
def processApproval (st : OrchState) (messageId : ℕ) (approved : Bool) :
    OrchState × List AgentMessage :=
  match st.session.messages.find? (fun m => m.id = messageId) with
  | none => (st, [])
  | some _ =>
    let msgs := setApprovedFirst st.session.messages messageId approved
    let st := { st with session := { st.session with messages := msgs } }
    if !approved then
      (st, [rejectionMsg st.nextId])
    else
      let (st, newMessages) :=
        if st.session.status = .RESEARCHING then
          ({ st with
              session := { st.session with status := .PLANNING }
              nextId := st.nextId + 2 },
           [searchResMsg st.nextId, planMsg (st.nextId + 1)])
        else if st.session.status = .PLANNING then
          ({ st with
              session := { st.session with status := .VALIDATING }
              nextId := st.nextId + 2 },
           [testResMsg st.nextId, validMsg (st.nextId + 1)])
        else if st.session.status = .VALIDATING then
          ({ st with
              session := { st.session with status := .DEPLOYED }
              nextId := st.nextId + 1 },
           [deployMsg st.nextId])
        else
          (st, [])
      ({ st with
          session := { st.session with
            messages := pruneContext (st.session.messages ++ newMessages) } },
       newMessages)

/-- The state-machine step performed by an approval, as a pure function of
the session status (`DEPLOYED` is terminal: no branch of the routing logic
matches, so the status is left unchanged). -/
def nextStatusOnApproval : SessionStatus → SessionStatus
  | .RESEARCHING => .PLANNING
  | .PLANNING => .VALIDATING
  | .VALIDATING => .DEPLOYED
  | .DEPLOYED => .DEPLOYED

/-- What a rejected/approved message update may do to a single list entry:
all fields other than `approved` are preserved, and `approved` either keeps
its old value or (for the targeted message) becomes the recorded decision. -/
def approvalOnlyUpdate (mid : ℕ) (b : Bool) (old new : AgentMessage) : Prop :=
  new.id = old.id ∧ new.role = old.role ∧ new.content = old.content ∧
    new.requiresHIL = old.requiresHIL ∧
    (new.approved = old.approved ∨ (old.id = mid ∧ new.approved = some b))

/-! ## Concrete inputs used by witnesses and counterexamples -/

def normalLogEntry : NetworkLog :=
  { protocol := "Modbus TCP"
    command := "Read Holding Reg (0x03)"
    isMalicious := false
    size := 64
    source := "192.168.1.50" }

/-- A quiet frame: classifies as NORMAL with score 0.1 under any fault mode
other than `MECHANICAL_FAIL`. -/
def lowFrame : TelemetryFrame :=
  { temp := 45, vib := 2, audio := 60, latency := 12, packetLoss := 0
    cpu := 18, pressure := 200, current := 12, networkLog := normalLogEntry }

/-- A DDoS-signature frame: packet loss 6 (> 5) and temperature 50 (< 60),
with the network log also marked malicious so that the CYBER_KINETIC guard
would match as well. -/
def ddosFrame : TelemetryFrame :=
  { temp := 50, vib := 2, audio := 61, latency := 300, packetLoss := 6
    cpu := 95, pressure := 200, current := 12
    networkLog :=
      { protocol := "TCP", command := "SYN Flood", isMalicious := true
        size := 1500, source := "UNKNOWN_BOTNET" } }

/-- A frame with high vibration (10 > 5) but no network anomaly. -/
def mechFrame : TelemetryFrame :=
  { temp := 45, vib := 10, audio := 60, latency := 12, packetLoss := 0
    cpu := 18, pressure := 200, current := 12, networkLog := normalLogEntry }

/-- Playback state at cursor 0 over ten quiet frames (a 10-tick low-score run). -/
def lowState : EdgeState :=
  { currentDataset := List.replicate 10 lowFrame
    playbackCursor := 0
    faultMode := .NONE
    currentFrame := lowFrame }

/-- Playback state at cursor 0 over ten DDoS frames (every tick scores 0.92). -/
def alertState : EdgeState :=
  { currentDataset := List.replicate 10 ddosFrame
    playbackCursor := 0
    faultMode := .NONE
    currentFrame := ddosFrame }

/-- Playback state over two distinct frames, cursor at 0. -/
def twoFrameState : EdgeState :=
  { currentDataset := [lowFrame, mechFrame]
    playbackCursor := 0
    faultMode := .NONE
    currentFrame := lowFrame }

/-- The orchestrator state right after construction (constructor calls
`resetSession`; the id supply starts at 0). -/
def initialOrchState : OrchState :=
  { session :=
      { objective := ""
        status := .RESEARCHING
        messages := []
        longTermMemoryHits := [] }
    nextId := 0 }

/-- A session sitting in PLANNING with one pending proposal message. -/
def planningOrchState : OrchState :=
  { session :=
      { objective := "o"
        status := .PLANNING
        messages := [{ id := 0, role := .Orchestrator, content := "p", requiresHIL := true }]
        longTermMemoryHits := [] }
    nextId := 1 }

/-- A RESEARCHING session whose only message does NOT require human review
and was already decided — used to show the approval gate ignores both. -/
def nonHILOrchState : OrchState :=
  { session :=
      { objective := "o"
        status := .RESEARCHING
        messages := [{ id := 7, role := .Tester, content := "r", requiresHIL := false
                       approved := some true }]
        longTermMemoryHits := [] }
    nextId := 8 }

/-- A generic message builder for bulk list inputs. -/
def sampleMsg (i : ℕ) : AgentMessage :=
  { id := i, role := .Orchestrator, content := "m", requiresHIL := false }

/-! ## Helper lemmas -/

lemma find?_id_isSome (msgs : List AgentMessage) (mid : ℕ)
    (h : ∃ m ∈ msgs, m.id = mid) :
    ∃ m, msgs.find? (fun m => m.id = mid) = some m := by
  rw [← Option.isSome_iff_exists, List.find?_isSome]
  obtain ⟨m, hm, hid⟩ := h
  exact ⟨m, hm, by simp [hid]⟩

/-- C2 helper and claim body: the first detection rule wins whenever its
guard holds, whatever the fault mode and the rest of the frame look like. -/
theorem C2_rule1_precedence (mode : EdgeFaultType) (f : TelemetryFrame)
    (hp : f.packetLoss > 5) (ht : f.temp < 60) :
    classify mode f =
      { anomalyScore := 0.92
        detectedLabel := .NETWORK_DDOS
        specificAlerts := ["High Packet Loss Detected", "Network Latency Spike"] } := by
  unfold classify
  rw [if_pos ⟨hp, ht⟩]

/-- C2 witness: packetLoss = 6 and temp = 50 with a malicious network log
(so the CYBER_KINETIC guard also matches) still yields NETWORK_DDOS, 0.92. -/
theorem C2_rule1_precedence_witness :
    ddosFrame.packetLoss > 5 ∧ ddosFrame.temp < 60 ∧
    ddosFrame.networkLog.isMalicious = true ∧
    classify .NONE ddosFrame =
      { anomalyScore := 0.92
        detectedLabel := .NETWORK_DDOS
        specificAlerts := ["High Packet Loss Detected", "Network Latency Spike"] } :=
  ⟨by norm_num [ddosFrame], by norm_num [ddosFrame], rfl,
   C2_rule1_precedence .NONE ddosFrame (by norm_num [ddosFrame]) (by norm_num [ddosFrame])⟩

/-- C7: a high-vibration frame that triggers neither the DDoS rule nor the
kinetic rule classifies as NORMAL (score 0.1, no alerts) when the fault mode
is NONE, and MECHANICAL_WEAR is reachable only in MECHANICAL_FAIL mode. -/
theorem C7_mechanical_mode_gating :
    (∀ f : TelemetryFrame, f.vib > 5 →
      ¬(f.packetLoss > 5 ∧ f.temp < 60) →
      ¬(f.networkLog.isMalicious = true ∨ (f.temp > 75 ∧ f.latency > 100)) →
      classify .NONE f =
        { anomalyScore := 0.1, detectedLabel := .NORMAL, specificAlerts := [] }) ∧
    (∀ (mode : EdgeFaultType) (f : TelemetryFrame),
      (classify mode f).detectedLabel = .MECHANICAL_WEAR → mode = .MECHANICAL_FAIL) := by
  constructor
  · intro f _ h1 h2
    unfold classify
    rw [if_neg h1, if_neg h2, if_neg]
    rintro ⟨hmode, -⟩
    exact absurd hmode (by decide)
  · intro mode f h
    unfold classify at h
    split_ifs at h with h1 h2 h3 h4 h5 <;> simp_all

/-- C7 witness: vibration 10 (> 5) with fault mode NONE gives NORMAL. -/
theorem C7_mechanical_mode_gating_witness :
    mechFrame.vib > 5 ∧
    classify .NONE mechFrame =
      { anomalyScore := 0.1, detectedLabel := .NORMAL, specificAlerts := [] } :=
  ⟨by norm_num [mechFrame],
   C7_mechanical_mode_gating.1 mechFrame (by norm_num [mechFrame])
     (by norm_num [mechFrame]) (by norm_num [mechFrame, normalLogEntry])⟩

/-- C1 counterexample: a 0-indexed run of 10 consecutive low-score ticks from
cursor 0 publishes its heartbeats at tick indices 4 and 9, not 0 and 5 — the
sampling gate in `sendHeartbeat` tests `playbackCursor % 5` after
`readNextFrame` has already advanced the cursor, so no heartbeat at all is
published on tick 0 even though 0 mod 5 = 0. -/
theorem C1_uplink_sampling_counterexample :
    heartbeatTicks (runTicks lowState 10) = [4, 9] ∧
    heartbeatTicks (runTicks lowState 10) ≠ [0, 5] := by
  have h : heartbeatTicks (runTicks lowState 10) = [4, 9] := by
    norm_num [runTicks, tick, readNextFrame, classify, heartbeatTicks,
      lowState, lowFrame, normalLogEntry, List.range_succ]
  exact ⟨h, by rw [h]; decide⟩

/-- C1 amended: if the anomaly score exceeds 0.7 an alert is published on
that tick unconditionally; otherwise a heartbeat is published exactly when
the post-advance playback cursor is divisible by 5, so a 0-indexed run of 10
consecutive low-score ticks from cursor 0 publishes exactly 2 heartbeats, at
tick indices 4 and 9. -/
theorem C1_uplink_asymmetry :
    (∀ s : EdgeState,
      (classify (readNextFrame s).faultMode (readNextFrame s).currentFrame).anomalyScore > 0.7 →
      (tick s).2 = some (.Alert
        (classify (readNextFrame s).faultMode (readNextFrame s).currentFrame)
        (readNextFrame s).currentFrame)) ∧
    (∀ s : EdgeState,
      (classify (readNextFrame s).faultMode (readNextFrame s).currentFrame).anomalyScore ≤ 0.7 →
      (tick s).2 =
        if (readNextFrame s).playbackCursor % 5 = 0 then
          some (.Heartbeat (readNextFrame s).currentFrame.cpu (readNextFrame s).currentFrame.temp)
        else none) ∧
    heartbeatTicks (runTicks lowState 10) = [4, 9] := by
  refine ⟨fun s h => ?_, fun s h => ?_, ?_⟩
  · simp only [tick]
    rw [if_pos h]
  · simp only [tick]
    rw [if_neg (not_lt.mpr h)]
    split <;> rfl
  · norm_num [runTicks, tick, readNextFrame, classify, heartbeatTicks,
      lowState, lowFrame, normalLogEntry, List.range_succ]

/-- C1 witness: over the DDoS dataset the very first tick (whose cursor is
not divisible by 5) publishes an alert; over the quiet dataset the first
tick suppresses its heartbeat. -/
theorem C1_uplink_asymmetry_witness :
    (classify (readNextFrame alertState).faultMode
        (readNextFrame alertState).currentFrame).anomalyScore > 0.7 ∧
    (tick alertState).2 = some (.Alert
      (classify (readNextFrame alertState).faultMode (readNextFrame alertState).currentFrame)
      (readNextFrame alertState).currentFrame) ∧
    (classify (readNextFrame lowState).faultMode
        (readNextFrame lowState).currentFrame).anomalyScore ≤ 0.7 ∧
    (tick lowState).2 = none := by
  have ha : (classify (readNextFrame alertState).faultMode
      (readNextFrame alertState).currentFrame).anomalyScore > 0.7 := by
    norm_num [readNextFrame, alertState, ddosFrame, classify]
  have hl : (classify (readNextFrame lowState).faultMode
      (readNextFrame lowState).currentFrame).anomalyScore ≤ 0.7 := by
    norm_num [readNextFrame, lowState, lowFrame, normalLogEntry, classify]
  refine ⟨ha, C1_uplink_asymmetry.1 alertState ha, hl, ?_⟩
  rw [C1_uplink_asymmetry.2.1 lowState hl]
  norm_num [readNextFrame, lowState]

/-- C6 counterexample: over the two-frame dataset the reader advances the
cursor to 1 but returns the frame at the OLD position 0, which differs from
the frame at the new cursor position. -/
theorem C6_frame_reader_counterexample :
    (readNextFrame twoFrameState).playbackCursor = 1 ∧
    (readNextFrame twoFrameState).currentFrame ≠
      twoFrameState.currentDataset.getD (readNextFrame twoFrameState).playbackCursor lowFrame := by
  constructor
  · rfl
  · norm_num [readNextFrame, twoFrameState, lowFrame, mechFrame, normalLogEntry]

/-- C6 amended: `readNextFrame` advances the cursor by one modulo the dataset
length and returns the frame at the PRE-advance cursor position. -/
theorem C6_frame_reader_postcondition (s : EdgeState)
    (h : s.playbackCursor < s.currentDataset.length) :
    (readNextFrame s).playbackCursor = (s.playbackCursor + 1) % s.currentDataset.length ∧
    (readNextFrame s).currentFrame = s.currentDataset.get ⟨s.playbackCursor, h⟩ := by
  refine ⟨rfl, ?_⟩
  simp [readNextFrame, List.getD_eq_getElem?_getD, List.getElem?_eq_getElem h]

/-- C6 witness: the amended postcondition evaluated on the two-frame state. -/
theorem C6_frame_reader_postcondition_witness :
    twoFrameState.playbackCursor < twoFrameState.currentDataset.length ∧
    (readNextFrame twoFrameState).playbackCursor = 1 % 2 ∧
    (readNextFrame twoFrameState).currentFrame =
      twoFrameState.currentDataset.get ⟨0, by norm_num [twoFrameState]⟩ := by
  have h : twoFrameState.playbackCursor < twoFrameState.currentDataset.length := by
    norm_num [twoFrameState]
  exact ⟨h, (C6_frame_reader_postcondition twoFrameState h).1,
    (C6_frame_reader_postcondition twoFrameState h).2⟩

/-- C3: dataset generation is NOT reproducible across processes.  Two runs
whose `Math.random` streams differ (both streams staying in the legal range
`[0, 1)`) produce different NORMAL datasets already at cursor position 0 —
the `audio` channel of frame 0 is `60 + Math.random()` — whatever values
`Math.sin` and `Math.cos` take.  This contradicts the seeded-determinism
contract claimed by the spec and by the docstring of `simulatedData.ts`. -/
theorem C3_generation_uses_real_randomness (sin cos : ℚ → ℚ) :
    (∀ n : ℕ, 0 ≤ (fun _ : ℕ => (0 : ℚ)) n ∧ (fun _ : ℕ => (0 : ℚ)) n < 1) ∧
    (∀ n : ℕ, 0 ≤ (fun _ : ℕ => (1 / 2 : ℚ)) n ∧ (fun _ : ℕ => (1 / 2 : ℚ)) n < 1) ∧
    (generateNormal (fun _ => 0) sin cos).head? ≠
      (generateNormal (fun _ => 1 / 2) sin cos).head? := by
  refine ⟨fun n => by norm_num, fun n => by norm_num, fun h => ?_⟩
  rw [generateNormal, generateNormal, List.head?_map, List.head?_map] at h
  have h0 : (List.range 60).head? = some 0 := rfl
  rw [h0] at h
  have ha := congrArg TelemetryFrame.audio (Option.some.inj h)
  have hb : (60 : ℚ) + 0 = 60 + 1 / 2 := ha
  norm_num at hb

lemma startSession_status (st : OrchState) (objective : String) :
    (startSession st objective).1.session.status = .RESEARCHING := rfl

/-- On approval of a message present in the session, the status takes exactly
one step of the routing state machine, whatever that message looks like. -/
lemma processApproval_true_status (st : OrchState) (mid : ℕ)
    (h : ∃ m ∈ st.session.messages, m.id = mid) :
    (processApproval st mid true).1.session.status =
      nextStatusOnApproval st.session.status := by
  obtain ⟨m, hfind⟩ := find?_id_isSome st.session.messages mid h
  unfold processApproval
  rw [hfind]
  cases hs : st.session.status <;> simp [hs, nextStatusOnApproval]

/-- Approving in the terminal DEPLOYED state produces no new messages. -/
lemma processApproval_true_deployed (st : OrchState) (mid : ℕ)
    (h : ∃ m ∈ st.session.messages, m.id = mid)
    (hs : st.session.status = .DEPLOYED) :
    (processApproval st mid true).2 = [] := by
  obtain ⟨m, hfind⟩ := find?_id_isSome st.session.messages mid h
  unfold processApproval
  rw [hfind]
  simp [hs]

/-- The rejection path in one equation: the decision is recorded on the
target message, nothing else in the state changes, and the single
cancellation message is returned without being appended. -/
lemma processApproval_false_eq (st : OrchState) (mid : ℕ)
    (h : ∃ m ∈ st.session.messages, m.id = mid) :
    processApproval st mid false =
      ({ st with session :=
          { st.session with messages := setApprovedFirst st.session.messages mid false } },
       [rejectionMsg st.nextId]) := by
  obtain ⟨m, hfind⟩ := find?_id_isSome st.session.messages mid h
  unfold processApproval
  rw [hfind]
  rfl

lemma setApprovedFirst_forall₂ (ms : List AgentMessage) (mid : ℕ) (b : Bool) :
    List.Forall₂ (approvalOnlyUpdate mid b) ms (setApprovedFirst ms mid b) := by
  induction ms with
  | nil => exact .nil
  | cons a as ih =>
    unfold setApprovedFirst
    by_cases ha : a.id = mid
    · rw [if_pos ha]
      refine .cons ⟨rfl, rfl, rfl, rfl, .inr ⟨ha, rfl⟩⟩ ?_
      exact List.forall₂_same.mpr fun x _ => ⟨rfl, rfl, rfl, rfl, .inl rfl⟩
    · rw [if_neg ha]
      exact .cons ⟨rfl, rfl, rfl, rfl, .inl rfl⟩ ih

lemma setApprovedFirst_length (ms : List AgentMessage) (mid : ℕ) (b : Bool) :
    (setApprovedFirst ms mid b).length = ms.length :=
  (setApprovedFirst_forall₂ ms mid b).length_eq.symm

lemma setApprovedFirst_sets (ms : List AgentMessage) (mid : ℕ) (b : Bool)
    (h : ∃ m ∈ ms, m.id = mid) :
    ∃ m2 ∈ setApprovedFirst ms mid b, m2.id = mid ∧ m2.approved = some b := by
  induction ms with
  | nil => obtain ⟨m, hm, -⟩ := h; cases hm
  | cons a as ih =>
    unfold setApprovedFirst
    by_cases ha : a.id = mid
    · rw [if_pos ha]
      exact ⟨_, List.mem_cons_self _ _, ha, rfl⟩
    · rw [if_neg ha]
      obtain ⟨m, hm, hid⟩ := h
      rcases List.mem_cons.mp hm with rfl | hm2
      · exact absurd hid ha
      · obtain ⟨m2, hm2, hprop⟩ := ih ⟨m, hm2, hid⟩
        exact ⟨m2, List.mem_cons_of_mem a hm2, hprop⟩

lemma setApprovedFirst_id_mem (ms : List AgentMessage) (mid : ℕ) (b : Bool) :
    ∀ m2 ∈ setApprovedFirst ms mid b, ∃ m1 ∈ ms, m2.id = m1.id := by
  induction ms with
  | nil => intro m2 hm2; cases hm2
  | cons a as ih =>
    intro m2 hm2
    unfold setApprovedFirst at hm2
    by_cases ha : a.id = mid
    · rw [if_pos ha] at hm2
      rcases List.mem_cons.mp hm2 with h | h
      · exact ⟨a, List.mem_cons_self a as, by rw [h]⟩
      · exact ⟨m2, List.mem_cons_of_mem a h, rfl⟩
    · rw [if_neg ha] at hm2
      rcases List.mem_cons.mp hm2 with h | h
      · exact ⟨a, List.mem_cons_self a as, by rw [h]⟩
      · obtain ⟨m1, hm1, hid⟩ := ih m2 h
        exact ⟨m1, List.mem_cons_of_mem a hm1, hid⟩

/-- C4: starting a session and approving three times in sequence (each time
a message present in the session) visits RESEARCHING, PLANNING, VALIDATING,
DEPLOYED in exactly that order — one step per approval, no skips, no
revisits. -/
theorem C4_fsm_monotonic_order (st0 : OrchState) (objective : String) (i1 i2 i3 : ℕ)
    (h1 : ∃ m ∈ (startSession st0 objective).1.session.messages, m.id = i1)
    (h2 : ∃ m ∈ (processApproval (startSession st0 objective).1 i1 true).1.session.messages,
            m.id = i2)
    (h3 : ∃ m ∈ (processApproval (processApproval (startSession st0 objective).1 i1 true).1
            i2 true).1.session.messages, m.id = i3) :
    (startSession st0 objective).1.session.status = .RESEARCHING ∧
    (processApproval (startSession st0 objective).1 i1 true).1.session.status = .PLANNING ∧
    (processApproval (processApproval (startSession st0 objective).1 i1 true).1
        i2 true).1.session.status = .VALIDATING ∧
    (processApproval (processApproval (processApproval (startSession st0 objective).1
        i1 true).1 i2 true).1 i3 true).1.session.status = .DEPLOYED := by
  have s0 := startSession_status st0 objective
  have s1 := processApproval_true_status _ i1 h1
  rw [s0] at s1
  have s2 := processApproval_true_status _ i2 h2
  rw [s1] at s2
  have s3 := processApproval_true_status _ i3 h3
  rw [s2] at s3
  exact ⟨s0, s1, s2, s3⟩

/-- C4 witness: a concrete full run — session start, then approvals of the
initial message (id 0), the planning proposal (id 2) and the validation
request (id 4). -/
theorem C4_fsm_monotonic_order_witness :
    (processApproval (processApproval (processApproval
        (startSession initialOrchState ("x")).1 0 true).1 2 true).1 4 true).1.session.status =
      .DEPLOYED :=
  (C4_fsm_monotonic_order initialOrchState ("x") 0 2 4
    (by decide) (by decide) (by decide)).2.2.2

/-- C5: rejecting any message present in the session leaves the status
unchanged and returns exactly one message, the cancellation message. -/
theorem C5_rejection_short_circuit (st : OrchState) (mid : ℕ)
    (h : ∃ m ∈ st.session.messages, m.id = mid) :
    (processApproval st mid false).1.session.status = st.session.status ∧
    (processApproval st mid false).2 = [rejectionMsg st.nextId] ∧
    (processApproval st mid false).2.length = 1 := by
  rw [processApproval_false_eq st mid h]
  exact ⟨rfl, rfl, rfl⟩

/-- C5 witness: rejection in the PLANNING state keeps the status PLANNING and
returns the single cancellation message. -/
theorem C5_rejection_short_circuit_witness :
    (processApproval planningOrchState 0 false).1.session.status = .PLANNING ∧
    (processApproval planningOrchState 0 false).2 = [rejectionMsg 1] := by
  have H := C5_rejection_short_circuit planningOrchState 0 (by decide)
  exact ⟨H.1.trans rfl, H.2.1.trans rfl⟩

/-- C8: `pruneContext` keeps lists of at most 20 messages unchanged; above 20
it returns the first message followed by the most recent 10 — 11 entries. -/
theorem C8_pruneContext_head_tail (msgs : List AgentMessage) :
    (msgs.length ≤ 20 → pruneContext msgs = msgs) ∧
    (msgs.length > 20 →
      pruneContext msgs = msgs.take 1 ++ msgs.drop (msgs.length - 10) ∧
      (pruneContext msgs).length = 11) := by
  constructor
  · intro h
    rw [pruneContext, if_neg (by omega)]
  · intro h
    have he : pruneContext msgs = msgs.take 1 ++ msgs.drop (msgs.length - 10) := by
      rw [pruneContext, if_pos h]
    refine ⟨he, ?_⟩
    rw [he]
    rw [List.length_append, List.length_take, List.length_drop]
    omega

/-- C8 witness: a 25-message list prunes to exactly 11 entries, message 0
plus the last 10. -/
theorem C8_pruneContext_head_tail_witness :
    ((List.range 25).map sampleMsg).length > 20 ∧
    pruneContext ((List.range 25).map sampleMsg) =
      ((List.range 25).map sampleMsg).take 1 ++ ((List.range 25).map sampleMsg).drop 15 ∧
    (pruneContext ((List.range 25).map sampleMsg)).length = 11 := by
  have hl : ((List.range 25).map sampleMsg).length > 20 := by simp
  have H := (C8_pruneContext_head_tail ((List.range 25).map sampleMsg)).2 hl
  refine ⟨hl, ?_, H.2⟩
  have h15 : ((List.range 25).map sampleMsg).length - 10 = 15 := by simp
  rw [← h15]
  exact H.1

/-- C9 (implicit): approval is gated only on the session status — any message
present in the session advances the machine one step, regardless of its
`requiresHIL` flag or of an earlier decision; in DEPLOYED no messages are
produced; a second approval of the same message advances one further step. -/
theorem C9_approval_gate_not_per_message (st : OrchState) (mid : ℕ)
    (h : ∃ m ∈ st.session.messages, m.id = mid) :
    (processApproval st mid true).1.session.status =
        nextStatusOnApproval st.session.status ∧
    (st.session.status = .DEPLOYED → (processApproval st mid true).2 = []) ∧
    ((∃ m ∈ (processApproval st mid true).1.session.messages, m.id = mid) →
      (processApproval (processApproval st mid true).1 mid true).1.session.status =
        nextStatusOnApproval (nextStatusOnApproval st.session.status)) := by
  refine ⟨processApproval_true_status st mid h, fun hs => ?_, fun h2 => ?_⟩
  · exact processApproval_true_deployed st mid h hs
  · rw [processApproval_true_status _ mid h2, processApproval_true_status st mid h]

/-- C9 witness: the only message of `nonHILOrchState` has `requiresHIL =
false` and is already decided, yet approving it advances RESEARCHING to
PLANNING, and approving it again advances to VALIDATING. -/
theorem C9_approval_gate_not_per_message_witness :
    (∀ m ∈ nonHILOrchState.session.messages, m.requiresHIL = false ∧ m.approved = some true) ∧
    (processApproval nonHILOrchState 7 true).1.session.status = .PLANNING ∧
    (processApproval (processApproval nonHILOrchState 7 true).1 7 true).1.session.status =
      .VALIDATING := by
  have H := C9_approval_gate_not_per_message nonHILOrchState 7 (by decide)
  exact ⟨by decide, H.1.trans rfl, (H.2.2 (by decide)).trans rfl⟩

/-- C10 (implicit): rejection does not append the cancellation message to the
session log; the objective, status and message count are untouched, every
stored message keeps all its fields except that the targeted message's
`approved` flag may become `false`, and (when stored ids are below the fresh
id supply, as every id handed out is) the returned cancellation message's id
matches no stored message. -/
theorem C10_rejection_session_frame (st : OrchState) (mid : ℕ)
    (h : ∃ m ∈ st.session.messages, m.id = mid)
    (hwf : ∀ m ∈ st.session.messages, m.id < st.nextId) :
    (processApproval st mid false).1.session.objective = st.session.objective ∧
    (processApproval st mid false).1.session.status = st.session.status ∧
    (processApproval st mid false).1.session.messages.length =
      st.session.messages.length ∧
    List.Forall₂ (approvalOnlyUpdate mid false) st.session.messages
      (processApproval st mid false).1.session.messages ∧
    (∀ m ∈ (processApproval st mid false).2,
      ∀ m2 ∈ (processApproval st mid false).1.session.messages, m.id ≠ m2.id) ∧
    (∃ m2 ∈ (processApproval st mid false).1.session.messages,
      m2.id = mid ∧ m2.approved = some false) := by
  rw [processApproval_false_eq st mid h]
  refine ⟨rfl, rfl, setApprovedFirst_length _ _ _, setApprovedFirst_forall₂ _ _ _, ?_,
    setApprovedFirst_sets _ _ _ h⟩
  intro m hm m2 hm2
  rcases List.mem_singleton.mp hm with rfl
  obtain ⟨m1, hm1, hid⟩ := setApprovedFirst_id_mem _ _ _ m2 hm2
  have := hwf m1 hm1
  simp only [rejectionMsg]
  omega

/-- C10 witness: rejecting the pending proposal of `planningOrchState`. -/
theorem C10_rejection_session_frame_witness :
    (processApproval planningOrchState 0 false).1.session.status =
      planningOrchState.session.status ∧
    (processApproval planningOrchState 0 false).1.session.messages.length =
      planningOrchState.session.messages.length ∧
    (∀ m ∈ (processApproval planningOrchState 0 false).2,
      ∀ m2 ∈ (processApproval planningOrchState 0 false).1.session.messages,
        m.id ≠ m2.id) ∧
    (∃ m2 ∈ (processApproval planningOrchState 0 false).1.session.messages,
      m2.id = 0 ∧ m2.approved = some false) := by
  have H := C10_rejection_session_frame planningOrchState 0 (by decide) (by decide)
  exact ⟨H.2.1, H.2.2.1, H.2.2.2.2.1, H.2.2.2.2.2⟩

end OTSentinel
